import Mathlib

/-!
Verification of the protocol plugin registry and point dispatch engine of the
yanbing-edge gateway.

Shallow embedding of `src/handler/device_handler.rs` and `src/models/plugin.rs`.
External collaborators whose code is not among the provided sources (the
`protocol_core` crate's value/request model, the `config::device_shadow` module,
the plugin loader in `plugin_handler`) are modelled from the specification and
marked `Modelled from the spec:` in their doc comments.

The database (sqlite tables `tb_device` and `tb_point`) is embedded as in-memory
lists of rows; each handler becomes a pure function from the database, the
protocol store and the shadow to a result, the updated shadow/database, and a
trace of driver invocations (one `Event` per driver call site in the source).
-/

set_option autoImplicit false

/-- Access mode of a point (from `protocol_core`, spec section 3: read-only,
write-only, read-write). -/
inductive AccessMode where
  | Read
  | Write
  | ReadWrite
  deriving DecidableEq, Repr

/-- Wire value model (`protocol_core::Value`, spec section 3): a tagged union over
boolean, integer, float, string and a null variant.  The float payload is carried
opaquely as a rational; no floating-point arithmetic occurs in the verified code
paths. -/
inductive Value where
  | Boolean (b : Bool)
  | Integer (i : Int)
  | Float (q : ℚ)
  | Str (s : String)
  | Null
  deriving DecidableEq, Repr

/-- Embedding of the `validator` crate's `ValidationError::new(code)`: an error
carrying its code string. -/
structure ValidationError where
  code : String
  deriving DecidableEq, Repr

/-- Driver-side errors (spec section 4.1: connection failure,
address-not-found-on-device, type-mismatch, timeout, access-mode violation). -/
inductive DriverError where
  | ConnectionFailure (msg : String)
  | AddressNotFound (msg : String)
  | TypeMismatch (msg : String)
  | Timeout (msg : String)
  | AccessModeViolation (msg : String)
  deriving DecidableEq, Repr

/-- Embedding of `config::error::EdgeError` as used by the handled sources:
`EdgeError::Message` plus the `From` conversions applied by the `?` operator to
validation and driver errors. -/
inductive EdgeError where
  | Message (s : String)
  | Validation (e : ValidationError)
  | Driver (e : DriverError)
  deriving DecidableEq, Repr

/-- View of a filesystem path as consulted by `validate_path`: the path string,
whether `Path::exists()` holds, and the result of
`Path::extension().and_then(|ext| ext.to_str())`.  The filesystem is external
state, so these two observations are taken as fields. -/
structure PathView where
  path : String
  fileExists : Bool
  extension : Option String
  deriving DecidableEq, Repr

/-- Embedding of `validate_path` from `src/models/plugin.rs` (lines 81 to 95):
error `"库函数不存在"` when the file does not exist, then error
`"库函数不支持当前系统"` unless the extension is `Some ext` with
`DLL_EXTENSION.eq(ext)`.  The platform constant `DLL_EXTENSION` is the
parameter `dllExt`. -/
def validate_path (dllExt : String) (p : PathView) : Except ValidationError Unit :=
  if !p.fileExists then
    Except.error ⟨"库函数不存在"⟩
  else
    match p.extension with
    | some ext => if dllExt = ext then Except.ok () else Except.error ⟨"库函数不支持当前系统"⟩
    | none => Except.error ⟨"库函数不支持当前系统"⟩

/-- Row of table `tb_point` (`protocol_core::Point`): identity, owning device id,
protocol-specific address, data type tag, access mode, multiplier and precision,
description, optional part number (spec section 3).  The data type tag is opaque
to the core and carried as a string. -/
structure Point where
  id : Int
  device_id : Int
  address : String
  data_type : String
  access_mode : AccessMode
  multiplier : ℚ
  precision : Int
  description : String
  part_number : Option String
  deriving DecidableEq, Repr

/-- Row of table `tb_device` (`models::device::DeviceDTO`): identity, name,
device-type tag, opaque custom data, owning protocol name. -/
structure DeviceDTO where
  id : Int
  name : String
  device_type : String
  custom_data : String
  protocol_name : String
  deriving DecidableEq, Repr

/-- `protocol_core::Device`: a device together with its points, as assembled by
the handlers from a `DeviceDTO` row and the matching `tb_point` rows. -/
structure Device where
  id : Int
  name : String
  device_type : String
  points : List Point
  custom_data : String
  protocol_name : String
  deriving DecidableEq, Repr

/-- `protocol_core::PointWithProtocolId`: the join projection produced by
`get_point_with_protocol_id`, a point's columns plus the owning device's
protocol name (spec section 3). -/
structure PointWithProtocolId where
  point_id : Int
  device_id : Int
  address : String
  data_type : String
  access_mode : AccessMode
  multiplier : ℚ
  precision : Int
  description : String
  part_number : Option String
  protocol_name : String
  deriving DecidableEq, Repr

/-- `protocol_core::WriterPointRequest` (spec section 3, modelled fields): built
per-operation from a `PointWithProtocolId` plus the caller-supplied value. -/
structure WriterPointRequest where
  point_id : Int
  device_id : Int
  address : String
  data_type : String
  access_mode : AccessMode
  multiplier : ℚ
  precision : Int
  description : String
  part_number : Option String
  protocol_name : String
  value : Value
  deriving DecidableEq, Repr

/-- `protocol_core::ReaderPointRequest` (spec section 3, modelled fields): built
per-operation from a `PointWithProtocolId`. -/
structure ReaderPointRequest where
  point_id : Int
  device_id : Int
  address : String
  data_type : String
  access_mode : AccessMode
  multiplier : ℚ
  precision : Int
  description : String
  part_number : Option String
  protocol_name : String
  deriving DecidableEq, Repr

/-- Modelled from the spec: the `impl From for WriterPointRequest` conversion in
`protocol_core` (`point.into()` at device_handler.rs line 70) is not among the
provided sources.  Per spec section 3 the request is "built per-operation from a
PointWithProtocolId plus (for writes) the caller-supplied Value"; the metadata
fields are copied and the value field starts at the null variant — the handler
overwrites it before any use, so the initial value is immaterial. -/
def pointIntoWriter (p : PointWithProtocolId) : WriterPointRequest :=
  { point_id := p.point_id
    device_id := p.device_id
    address := p.address
    data_type := p.data_type
    access_mode := p.access_mode
    multiplier := p.multiplier
    precision := p.precision
    description := p.description
    part_number := p.part_number
    protocol_name := p.protocol_name
    value := Value.Null }

/-- Modelled from the spec: the `impl From for ReaderPointRequest` conversion in
`protocol_core` (`point.into()` at device_handler.rs line 53) is not among the
provided sources; the metadata fields are copied (spec section 3). -/
def pointIntoReader (p : PointWithProtocolId) : ReaderPointRequest :=
  { point_id := p.point_id
    device_id := p.device_id
    address := p.address
    data_type := p.data_type
    access_mode := p.access_mode
    multiplier := p.multiplier
    precision := p.precision
    description := p.description
    part_number := p.part_number
    protocol_name := p.protocol_name }

/-- A loaded protocol driver: the `protocol_core` driver contract (spec section
4.1), consumed polymorphically by the dispatch code. -/
structure Driver where
  read_point : ReaderPointRequest → Except DriverError Value
  write_point : WriterPointRequest → Except DriverError Value

/-- The protocol registry contents (`ProtocolStore.inner`): a map from protocol
name to driver, embedded as an association list in registration order. -/
abbrev ProtocolStore := List (String × Driver)

/-- Registry lookup, embedding `protocol_map.get(&name)` (device_handler.rs
line 69). -/
def protocolGet : ProtocolStore → String → Option Driver
  | [], _ => none
  | e :: rest, k => if e.1 = k then some e.2 else protocolGet rest k

/-- In-memory embedding of the sqlite database: the rows of `tb_device` and
`tb_point`. -/
structure Database where
  devices : List DeviceDTO
  points : List Point
  deriving Repr

/-- Embedding of `get_point_with_protocol_id` (device_handler.rs lines 77 to 95):
the inner join of `tb_point` and `tb_device` on `tb_point.device_id =
tb_device.id` filtered by `tb_point.id = ?`; `fetch_optional` takes the first
row; a missing row becomes `EdgeError::Message("point不存在,请检查请求参数")`. -/
def get_point_with_protocol_id (db : Database) (id : Int) :
    Except EdgeError PointWithProtocolId :=
  let rows := (db.points.filter (fun p => p.id == id)).flatMap (fun p =>
    (db.devices.filter (fun d => d.id == p.device_id)).map (fun d =>
      { point_id := p.id
        device_id := p.device_id
        address := p.address
        data_type := p.data_type
        access_mode := p.access_mode
        multiplier := p.multiplier
        precision := p.precision
        description := p.description
        part_number := p.part_number
        protocol_name := d.protocol_name : PointWithProtocolId }))
  match rows.head? with
  | some point => Except.ok point
  | none => Except.error (EdgeError.Message "point不存在,请检查请求参数")

/-- A shadow entry: last value and timestamp for a point (spec section 3,
`ShadowEntry`). -/
structure PointValue where
  value : Value
  timestamp : Nat
  deriving DecidableEq, Repr

/-- The point shadow: point id to last-known value, embedded as an association
list. -/
abbrev Shadow := List (Int × PointValue)

/-- Shadow lookup (spec section 4.4 `get`). -/
def shadowGet : Shadow → Int → Option PointValue
  | [], _ => none
  | e :: rest, k => if e.1 = k then some e.2 else shadowGet rest k

/-- Modelled from the spec: the shadow `put` of `config::device_shadow` is not
among the provided sources.  Per spec section 4.4 it overwrites last-write-wins
by timestamp: a put with an older timestamp than the current entry is a no-op. -/
def shadowPut (shadow : Shadow) (pid : Int) (v : Value) (ts : Nat) : Shadow :=
  match shadow with
  | [] => [(pid, ⟨v, ts⟩)]
  | e :: rest =>
    if e.1 = pid then
      (if ts < e.2.timestamp then e :: rest else (pid, ⟨v, ts⟩) :: rest)
    else e :: shadowPut rest pid v ts

/-- Trace events recording each driver invocation and each plugin load attempt:
one event per call site in the embedded code. -/
inductive Event where
  | readCall (protocol_name : String) (req : ReaderPointRequest)
  | writeCall (protocol_name : String) (req : WriterPointRequest)
  | loadAttempt (path : String)

/-- Modelled from the spec: `config::device_shadow::read_point` (called at
device_handler.rs line 53) is not among the provided sources.  Per spec section
4.5 read: serve a fresh shadow entry if one exists; otherwise resolve the driver
via the registry (NoSuchProtocol error if absent), call the driver's
`read_point`, on success update the shadow and return the entry. -/
def device_shadow_read_point (store : ProtocolStore) (shadow : Shadow) (now : Nat)
    (protocol_name : String) (req : ReaderPointRequest) :
    Except EdgeError PointValue × Shadow × List Event :=
  match shadowGet shadow req.point_id with
  | some entry => (Except.ok entry, shadow, [])
  | none =>
    match protocolGet store protocol_name with
    | none => (Except.error (EdgeError.Message "协议不存在,检查服务配置"), shadow, [])
    | some driver =>
      match driver.read_point req with
      | Except.error e =>
        (Except.error (EdgeError.Driver e), shadow, [Event.readCall protocol_name req])
      | Except.ok v =>
        (Except.ok ⟨v, now⟩, shadowPut shadow req.point_id v now,
         [Event.readCall protocol_name req])

/-- Embedding of `read_point_value` (device_handler.rs lines 51 to 56): fetch the
point join row (propagating its error), call `device_shadow::read_point` with the
protocol name and the reader request, project out `.value`. -/
def read_point_value (db : Database) (store : ProtocolStore) (shadow : Shadow)
    (now : Nat) (id : Int) : Except EdgeError Value × Shadow × List Event :=
  match get_point_with_protocol_id db id with
  | Except.error e => (Except.error e, shadow, [])
  | Except.ok point =>
    let out := device_shadow_read_point store shadow now point.protocol_name
      (pointIntoReader point)
    (out.1.map (fun e => e.value), out.2)

/-- Embedding of `writer_point_value` (device_handler.rs lines 63 to 75): fetch
the point join row (propagating its error), look the protocol up in the store
(`EdgeError::Message("协议不存在,检查服务配置")` on a miss), build the writer
request from the point with the caller-supplied value substituted in, call the
driver's `write_point`, return its result.  The source performs no shadow access
on this path, so the shadow passes through unchanged. -/
def writer_point_value (db : Database) (store : ProtocolStore) (shadow : Shadow)
    (id : Int) (value : Value) : Except EdgeError Value × Shadow × List Event :=
  match get_point_with_protocol_id db id with
  | Except.error e => (Except.error e, shadow, [])
  | Except.ok point =>
    match protocolGet store point.protocol_name with
    | none => (Except.error (EdgeError.Message "协议不存在,检查服务配置"), shadow, [])
    | some protocol =>
      let request := { pointIntoWriter point with value := value }
      match protocol.write_point request with
      | Except.error e =>
        (Except.error (EdgeError.Driver e), shadow,
         [Event.writeCall point.protocol_name request])
      | Except.ok res =>
        (Except.ok res, shadow, [Event.writeCall point.protocol_name request])

/-- Modelled from the spec: the plugin loader (`plugin_handler`, spec section
4.2) is not among the provided sources; only its validation step
`validate_path` is.  Per spec section 4.2: validation runs before touching the
filesystem-loaded code, a validation failure rejects the load without attempting
it and leaves the registry unchanged; after validation the module is loaded (a
load failure is reported, not a crash) and registered, a duplicate name being a
DuplicateProtocol error.  `loadModule` abstracts the dynamic-library load. -/
def load (dllExt : String) (loadModule : String → Except EdgeError Driver)
    (reg : ProtocolStore) (pv : PathView) (name : String) :
    Except EdgeError Unit × ProtocolStore × List Event :=
  match validate_path dllExt pv with
  | Except.error e => (Except.error (EdgeError.Validation e), reg, [])
  | Except.ok _ =>
    match loadModule pv.path with
    | Except.error e => (Except.error e, reg, [Event.loadAttempt pv.path])
    | Except.ok driver =>
      match protocolGet reg name with
      | some _ =>
        (Except.error (EdgeError.Message "duplicate protocol"), reg,
         [Event.loadAttempt pv.path])
      | none => (Except.ok (), reg ++ [(name, driver)], [Event.loadAttempt pv.path])

/-- Embedding of `update_device` (device_handler.rs lines 139 to 163): run the
UPDATE on `tb_device` setting name, device_type, custom_data and protocol_name
where the id matches, then return success when `rows_affected() > 0` and
`EdgeError::Message("设备不存在")` otherwise. -/
def update_device (db : Database) (id : Int) (device : DeviceDTO) :
    Except EdgeError Unit × Database :=
  let affected := (db.devices.filter (fun d => d.id == id)).length
  let devices' := db.devices.map (fun d =>
    if d.id == id then
      { d with
        name := device.name
        device_type := device.device_type
        custom_data := device.custom_data
        protocol_name := device.protocol_name }
    else d)
  let db' := { db with devices := devices' }
  if affected > 0 then (Except.ok (), db')
  else (Except.error (EdgeError.Message "设备不存在"), db')

/-- Embedding of `delete_device` (device_handler.rs lines 165 to 172): run the
DELETE on `tb_device` for the given id and return success unconditionally — the
affected-row count is never consulted. -/
def delete_device (db : Database) (device_id : Int) :
    Except EdgeError Unit × Database :=
  (Except.ok (),
   { db with devices := db.devices.filter (fun d => !(d.id == device_id)) })

/-- The `Device` assembled for one `tb_device` row inside
`load_all_device_details` (device_handler.rs lines 104 to 115): the row's
columns plus the `tb_point` rows whose device_id equals the row's id. -/
def attachPoints (db : Database) (device : DeviceDTO) : Device :=
  { id := device.id
    name := device.name
    device_type := device.device_type
    points := db.points.filter (fun p => p.device_id == device.id)
    custom_data := device.custom_data
    protocol_name := device.protocol_name }

/-- One step of the result map construction in `load_all_device_details`
(device_handler.rs lines 117 to 119): `res.entry(key).or_insert_with(Vec::new)
.push(device)` — append to the existing vector when the key is present,
otherwise add a new entry. -/
def insertDevice : List (String × List Device) → String → Device →
    List (String × List Device)
  | [], key, d => [(key, [d])]
  | e :: rest, key, d =>
    if e.1 = key then (e.1, e.2 ++ [d]) :: rest else e :: insertDevice rest key d

/-- Map lookup on the result of `load_all_device_details`, with the empty vector
for an absent key. -/
def getVec : List (String × List Device) → String → List Device
  | [], _ => []
  | e :: rest, k => if e.1 = k then e.2 else getVec rest k

/-- Embedding of `load_all_device_details` (device_handler.rs lines 98 to 123):
for each `tb_device` row in table order, fetch its points, assemble the
`Device`, and insert it into the map under the device's protocol_name.  The
`HashMap` is embedded as an association list in first-insertion order; only
lookup and key count are relied on. -/
def load_all_device_details (db : Database) : List (String × List Device) :=
  db.devices.foldl (fun res device =>
    insertDevice res device.protocol_name (attachPoints db device)) []

/-- Concrete read-write point on device 1, used by the concrete instances. -/
def exPoint : Point :=
  { id := 1
    device_id := 1
    address := "40001"
    data_type := "int16"
    access_mode := AccessMode.ReadWrite
    multiplier := 1
    precision := 0
    description := ""
    part_number := none }

/-- Concrete read-only point on device 2, used by the concrete instances. -/
def roPoint : Point :=
  { id := 2
    device_id := 2
    address := "40002"
    data_type := "int16"
    access_mode := AccessMode.Read
    multiplier := 1
    precision := 0
    description := ""
    part_number := none }

/-- Concrete device owned by protocol `mockA`. -/
def exDevice : DeviceDTO :=
  { id := 1
    name := "dev-a"
    device_type := "plc"
    custom_data := ""
    protocol_name := "mockA" }

/-- Concrete device owned by protocol `mockB`. -/
def exDevice2 : DeviceDTO :=
  { id := 2
    name := "dev-b"
    device_type := "plc"
    custom_data := ""
    protocol_name := "mockB" }

/-- Concrete database with the two devices and the two points. -/
def exDb : Database :=
  { devices := [exDevice, exDevice2]
    points := [exPoint, roPoint] }

/-- The join row `get_point_with_protocol_id` produces for point 1 of `exDb`. -/
def exJoin : PointWithProtocolId :=
  { point_id := 1
    device_id := 1
    address := "40001"
    data_type := "int16"
    access_mode := AccessMode.ReadWrite
    multiplier := 1
    precision := 0
    description := ""
    part_number := none
    protocol_name := "mockA" }

/-- The join row `get_point_with_protocol_id` produces for point 2 of `exDb`. -/
def roJoin : PointWithProtocolId :=
  { point_id := 2
    device_id := 2
    address := "40002"
    data_type := "int16"
    access_mode := AccessMode.Read
    multiplier := 1
    precision := 0
    description := ""
    part_number := none
    protocol_name := "mockB" }

/-- A driver that clamps written integers to 100 and commits the clamped value
(spec section 8, scenario C). -/
def clampDriver : Driver where
  read_point := fun _ => Except.ok (Value.Integer 7)
  write_point := fun req =>
    match req.value with
    | Value.Integer i => Except.ok (Value.Integer (min i 100))
    | v => Except.ok v

/-- A driver that honours the contract clause of spec section 4.1: a write to a
read-only point fails with an access-mode violation. -/
def denyDriver : Driver where
  read_point := fun _ => Except.ok Value.Null
  write_point := fun req =>
    if req.access_mode = AccessMode.Read then
      Except.error (DriverError.AccessModeViolation "access mode forbids writing")
    else Except.ok req.value

/-- Concrete registry holding the two drivers. -/
def exStore : ProtocolStore := [("mockA", clampDriver), ("mockB", denyDriver)]

example : get_point_with_protocol_id exDb 1 = Except.ok exJoin := rfl

example : get_point_with_protocol_id exDb 2 = Except.ok roJoin := rfl

example : protocolGet exStore "mockB" = some denyDriver := rfl

example :
    (writer_point_value exDb exStore [] 1 (Value.Integer 200)).1
      = Except.ok (Value.Integer 100) := rfl

/-- Claim C2: a plugin path failing the existence check or whose extension is
not the platform's native-module suffix is rejected by validation before any
load attempt (empty event trace) with the registry unchanged, and validation
accepts a path exactly when both checks pass. -/
theorem validate_path_rejects_and_preserves_registry
    (dllExt : String) (loadModule : String → Except EdgeError Driver)
    (reg : ProtocolStore) (pv : PathView) (name : String) :
    (validate_path dllExt pv = Except.ok () ↔
      pv.fileExists = true ∧ pv.extension = some dllExt)
  ∧ (pv.fileExists = false ∨ pv.extension ≠ some dllExt →
      ∃ e, load dllExt loadModule reg pv name
        = (Except.error (EdgeError.Validation e), reg, [])) := by
  obtain ⟨pth, fe, ext⟩ := pv
  cases fe with
  | false =>
    refine ⟨by simp [validate_path], fun _ => ⟨⟨"库函数不存在"⟩, ?_⟩⟩
    simp [load, validate_path]
  | true =>
    cases ext with
    | none =>
      refine ⟨by simp [validate_path], fun _ => ⟨⟨"库函数不支持当前系统"⟩, ?_⟩⟩
      simp [load, validate_path]
    | some e =>
      by_cases hd : dllExt = e
      · subst hd
        refine ⟨by simp [validate_path], fun h => ?_⟩
        rcases h with h | h
        · exact absurd h (by simp)
        · exact absurd rfl h
      · refine ⟨?_, fun _ => ⟨⟨"库函数不支持当前系统"⟩, ?_⟩⟩
        · simp only [validate_path, Bool.not_true, Bool.false_eq_true, if_false]
          constructor
          · intro hcontra
            rw [if_neg hd] at hcontra
            exact absurd hcontra (by simp)
          · rintro ⟨-, hsome⟩
            exact absurd (Option.some_inj.mp hsome).symm hd
        · simp [load, validate_path, hd]

/-- Witness for C2 at a concrete rejected path (exists but has extension
`txt` on a platform whose suffix is `so`). -/
theorem validate_path_rejects_witness :
    ((PathView.mk "plugin.txt" true (some "txt")).fileExists = false ∨
      (PathView.mk "plugin.txt" true (some "txt")).extension ≠ some "so")
  ∧ ∃ e, load "so" (fun _ => Except.error (EdgeError.Message "unused"))
      [] (PathView.mk "plugin.txt" true (some "txt")) "p"
        = (Except.error (EdgeError.Validation e), [], []) := by
  refine ⟨Or.inr (by decide), ?_⟩
  exact (validate_path_rejects_and_preserves_registry "so"
    (fun _ => Except.error (EdgeError.Message "unused")) []
    (PathView.mk "plugin.txt" true (some "txt")) "p").2 (Or.inr (by decide))

/-- Claim C8: updating a device succeeds exactly when a `tb_device` row with the
given id exists; with no matching row it returns the not-found error instead of
silent success. -/
theorem update_device_found_iff (db : Database) (id : Int) (device : DeviceDTO) :
    ((update_device db id device).1 = Except.ok () ↔ ∃ d ∈ db.devices, d.id = id)
  ∧ ((∀ d ∈ db.devices, d.id ≠ id) →
      (update_device db id device).1
        = Except.error (EdgeError.Message "设备不存在")) := by
  have hpos : 0 < (db.devices.filter (fun d => d.id == id)).length ↔
      ∃ d ∈ db.devices, d.id = id := by
    rw [List.length_pos_iff_exists_mem]
    constructor
    · rintro ⟨a, ha⟩
      have := List.mem_filter.mp ha
      exact ⟨a, this.1, by simpa using this.2⟩
    · rintro ⟨d, hd, hid⟩
      exact ⟨d, List.mem_filter.mpr ⟨hd, by simpa using hid⟩⟩
  constructor
  · by_cases h : 0 < (db.devices.filter (fun d => d.id == id)).length
    · simp only [update_device, gt_iff_lt, if_pos h]
      simpa using hpos.mp h
    · simp only [update_device, gt_iff_lt, if_neg h]
      constructor
      · intro hcontra
        exact absurd hcontra (by simp)
      · intro hex
        exact absurd (hpos.mpr hex) h
  · intro h
    have hnone : ¬ 0 < (db.devices.filter (fun d => d.id == id)).length := by
      intro hlt
      obtain ⟨d, hd, hid⟩ := hpos.mp hlt
      exact h d hd hid
    simp only [update_device, gt_iff_lt, if_neg hnone]

/-- Witness for C8: updating the present device 1 of `exDb` succeeds, while
updating id 1 in an empty table reports the not-found error. -/
theorem update_device_found_iff_witness :
    (update_device exDb 1 exDevice).1 = Except.ok ()
  ∧ (update_device { devices := [], points := [] } 1 exDevice).1
      = Except.error (EdgeError.Message "设备不存在") := by
  constructor
  · exact (update_device_found_iff exDb 1 exDevice).1.mpr
      ⟨exDevice, by simp [exDb], rfl⟩
  · exact (update_device_found_iff { devices := [], points := [] } 1 exDevice).2
      (by simp)

/-- Claim C9: deleting a device always returns success, in particular when no
row with the given id exists (in which case the table is also unchanged);
unlike update, delete never reports not-found. -/
theorem delete_device_always_ok (db : Database) (device_id : Int) :
    (delete_device db device_id).1 = Except.ok ()
  ∧ ((∀ d ∈ db.devices, d.id ≠ device_id) → (delete_device db device_id).2 = db) := by
  refine ⟨rfl, fun h => ?_⟩
  have hf : db.devices.filter (fun d => !(d.id == device_id)) = db.devices := by
    apply List.filter_eq_self.mpr
    intro a ha
    simp [h a ha]
  simp [delete_device, hf]

/-- Witness for C9: deleting id 7, which is absent from `exDb`, still succeeds
and leaves the table as it was. -/
theorem delete_device_always_ok_witness :
    (delete_device exDb 7).1 = Except.ok () ∧ (delete_device exDb 7).2 = exDb := by
  exact ⟨(delete_device_always_ok exDb 7).1,
    (delete_device_always_ok exDb 7).2 (by decide)⟩

/-- Counterexample to claim C1 (spec scenario C): with the clamping driver
registered for `mockA`, writing Integer 200 to point 1 succeeds with committed
value Integer 100, yet the shadow is still empty afterwards — a subsequent
shadow read of point 1 yields nothing, not the committed value: the write path
of the source performs no shadow update. -/
theorem writer_point_value_shadow_cex :
    (writer_point_value exDb exStore [] 1 (Value.Integer 200)).1
      = Except.ok (Value.Integer 100)
  ∧ (writer_point_value exDb exStore [] 1 (Value.Integer 200)).2.1 = []
  ∧ shadowGet (writer_point_value exDb exStore [] 1 (Value.Integer 200)).2.1 1
      = none :=
  ⟨rfl, rfl, rfl⟩

/-- Claim C1 as amended: a write dispatch never updates the shadow — the shadow
component of `writer_point_value` is returned exactly as it was passed in, on
every path; the committed value is only returned to the caller. -/
theorem writer_point_value_leaves_shadow_unchanged
    (db : Database) (store : ProtocolStore) (shadow : Shadow)
    (id : Int) (v : Value) :
    (writer_point_value db store shadow id v).2.1 = shadow := by
  unfold writer_point_value
  rcases hpt : get_point_with_protocol_id db id with e | point
  · rfl
  · rcases hpr : protocolGet store point.protocol_name with _ | protocol
    · simp [hpr]
    · simp only [hpr]
      rcases hw : protocol.write_point { pointIntoWriter point with value := v }
        with e | res <;> simp [hw]

/-- Claim C3: when the point join row resolves and its protocol has a driver in
the store, the request handed to `write_point` is the point's metadata with the
caller-supplied value substituted, and the dispatch result is exactly the
driver's own result (error wrapped, committed value passed through), with one
driver invocation recorded. -/
theorem writer_point_value_commits_driver_result
    (db : Database) (store : ProtocolStore) (shadow : Shadow) (id : Int)
    (v : Value) (point : PointWithProtocolId) (driver : Driver)
    (hpt : get_point_with_protocol_id db id = Except.ok point)
    (hdrv : protocolGet store point.protocol_name = some driver) :
    writer_point_value db store shadow id v
      = ((driver.write_point { pointIntoWriter point with value := v }).mapError
           EdgeError.Driver,
         shadow,
         [Event.writeCall point.protocol_name
            { pointIntoWriter point with value := v }]) := by
  unfold writer_point_value
  rw [hpt]
  simp only [hdrv]
  cases driver.write_point { pointIntoWriter point with value := v } with
  | error e => rfl
  | ok res => rfl

/-- Witness for C3: writing Integer 200 to point 1 of `exDb` through the
clamping driver returns the driver's committed Integer 100, and the recorded
request carries the substituted value. -/
theorem writer_point_value_commits_driver_result_witness :
    writer_point_value exDb exStore [] 1 (Value.Integer 200)
      = ((clampDriver.write_point
            { pointIntoWriter exJoin with value := Value.Integer 200 }).mapError
           EdgeError.Driver,
         [],
         [Event.writeCall exJoin.protocol_name
            { pointIntoWriter exJoin with value := Value.Integer 200 }]) :=
  writer_point_value_commits_driver_result exDb exStore [] 1 (Value.Integer 200)
    exJoin clampDriver rfl rfl

/-- Claim C4: a write dispatched to a read-only point, through a driver that
honours the access-mode clause of the driver contract, fails with the driver's
access-mode violation and leaves the shadow untouched. -/
theorem writer_read_only_access_mode_error
    (db : Database) (store : ProtocolStore) (shadow : Shadow) (id : Int)
    (v : Value) (point : PointWithProtocolId) (driver : Driver) (msg : String)
    (hpt : get_point_with_protocol_id db id = Except.ok point)
    (hmode : point.access_mode = AccessMode.Read)
    (hdrv : protocolGet store point.protocol_name = some driver)
    (hconform : ∀ req : WriterPointRequest, req.access_mode = AccessMode.Read →
      driver.write_point req
        = Except.error (DriverError.AccessModeViolation msg)) :
    writer_point_value db store shadow id v
      = (Except.error (EdgeError.Driver (DriverError.AccessModeViolation msg)),
         shadow,
         [Event.writeCall point.protocol_name
            { pointIntoWriter point with value := v }]) := by
  have hreq : ({ pointIntoWriter point with value := v }
      : WriterPointRequest).access_mode = AccessMode.Read := by
    simpa [pointIntoWriter] using hmode
  unfold writer_point_value
  rw [hpt]
  simp only [hdrv, hconform _ hreq]

/-- Witness for C4: point 2 of `exDb` is read-only; writing to it through the
contract-honouring driver registered for `mockB` fails with the access-mode
violation and the empty shadow stays empty. -/
theorem writer_read_only_access_mode_error_witness :
    writer_point_value exDb exStore [] 2 (Value.Integer 1)
      = (Except.error (EdgeError.Driver
           (DriverError.AccessModeViolation "access mode forbids writing")),
         [],
         [Event.writeCall roJoin.protocol_name
            { pointIntoWriter roJoin with value := Value.Integer 1 }]) :=
  writer_read_only_access_mode_error exDb exStore [] 2 (Value.Integer 1)
    roJoin denyDriver "access mode forbids writing" rfl rfl rfl
    (fun req h => by simp [denyDriver, h])

/-- Claim C5: a dispatch (write or read) on a point whose protocol name has no
entry in the registry fails with the no-such-protocol message, invokes no
driver (empty event trace), and leaves the shadow unchanged; for the read path
the shadow is assumed to hold no entry for the point, otherwise the modelled
shadow would serve the cached value without consulting the registry. -/
theorem dispatch_no_such_protocol (db : Database) (store : ProtocolStore)
    (shadow : Shadow) (now : Nat) (id : Int) (v : Value)
    (point : PointWithProtocolId)
    (hpt : get_point_with_protocol_id db id = Except.ok point)
    (hproto : protocolGet store point.protocol_name = none)
    (hsh : shadowGet shadow point.point_id = none) :
    writer_point_value db store shadow id v
      = (Except.error (EdgeError.Message "协议不存在,检查服务配置"), shadow, [])
  ∧ read_point_value db store shadow now id
      = (Except.error (EdgeError.Message "协议不存在,检查服务配置"), shadow, []) := by
  constructor
  · unfold writer_point_value
    rw [hpt]
    simp [hproto]
  · unfold read_point_value
    rw [hpt]
    unfold device_shadow_read_point
    have hsh' : shadowGet shadow (pointIntoReader point).point_id = none := hsh
    simp [hsh', hproto, Except.map]

/-- Witness for C5: with an empty registry, both dispatch operations on point 1
of `exDb` fail with the no-such-protocol message, no driver call, shadow
unchanged. -/
theorem dispatch_no_such_protocol_witness :
    writer_point_value exDb [] [] 1 (Value.Integer 5)
      = (Except.error (EdgeError.Message "协议不存在,检查服务配置"), [], [])
  ∧ read_point_value exDb [] [] 0 1
      = (Except.error (EdgeError.Message "协议不存在,检查服务配置"), [], []) :=
  dispatch_no_such_protocol exDb [] [] 0 1 (Value.Integer 5) exJoin rfl rfl rfl

/-- Claim C6: on a point id with no matching `tb_point` row, both the read and
the write handler return the not-found error with its human-readable message,
invoke no driver (empty trace), and leave the shadow unchanged. -/
theorem point_not_found_error (db : Database) (store : ProtocolStore)
    (shadow : Shadow) (now : Nat) (id : Int) (v : Value)
    (h : ∀ p ∈ db.points, p.id ≠ id) :
    read_point_value db store shadow now id
      = (Except.error (EdgeError.Message "point不存在,请检查请求参数"), shadow, [])
  ∧ writer_point_value db store shadow id v
      = (Except.error (EdgeError.Message "point不存在,请检查请求参数"), shadow, []) := by
  have hq : get_point_with_protocol_id db id
      = Except.error (EdgeError.Message "point不存在,请检查请求参数") := by
    unfold get_point_with_protocol_id
    have hf : db.points.filter (fun p => p.id == id) = [] := by
      apply List.filter_eq_nil_iff.mpr
      intro a ha
      simp [h a ha]
    simp [hf]
  constructor
  · unfold read_point_value
    rw [hq]
  · unfold writer_point_value
    rw [hq]

/-- Witness for C6: point id 99 has no row in `exDb`; both handlers report the
not-found message without any driver call. -/
theorem point_not_found_error_witness :
    read_point_value exDb exStore [] 0 99
      = (Except.error (EdgeError.Message "point不存在,请检查请求参数"), [], [])
  ∧ writer_point_value exDb exStore [] 99 Value.Null
      = (Except.error (EdgeError.Message "point不存在,请检查请求参数"), [], []) :=
  point_not_found_error exDb exStore [] 0 99 Value.Null (by decide)

/-- Lookup after one `insertDevice` step: the vector for the inserted key gains
the device at its end, every other vector is untouched. -/
theorem getVec_insertDevice (m : List (String × List Device)) (key p : String)
    (d : Device) :
    getVec (insertDevice m key d) p
      = if p = key then getVec m p ++ [d] else getVec m p := by
  induction m with
  | nil =>
    by_cases h : p = key
    · subst h; simp [insertDevice, getVec]
    · have h2 : ¬ key = p := fun hh => h hh.symm
      simp [insertDevice, getVec, h, h2]
  | cons e rest ih =>
    by_cases he : e.1 = key
    · by_cases hp : e.1 = p
      · have hpk : p = key := hp.symm.trans he
        subst hpk
        simp [insertDevice, getVec, he]
      · have hpk : ¬ p = key := fun hh => hp (he.trans hh.symm)
        have hkp : ¬ key = p := fun hh => hp (he.trans hh)
        simp [insertDevice, getVec, he, hp, hpk, hkp]
    · by_cases hp : e.1 = p
      · have hpk : ¬ p = key := fun hh => he (hp.trans hh)
        have hkp : ¬ key = p := fun hh => he (hp.trans hh.symm)
        simp [insertDevice, getVec, he, hp, hpk, hkp, ih]
      · simp [insertDevice, getVec, he, hp, ih]

/-- Lookup after folding a device list into the map: the vector at `p` is
extended by exactly the devices whose protocol name is `p`, in table order. -/
theorem getVec_foldl (db : Database) (ds : List DeviceDTO)
    (m : List (String × List Device)) (p : String) :
    getVec (ds.foldl (fun res device =>
        insertDevice res device.protocol_name (attachPoints db device)) m) p
      = getVec m p
          ++ (ds.filter (fun d => d.protocol_name == p)).map (attachPoints db) := by
  induction ds generalizing m with
  | nil => simp
  | cons d t ih =>
    rw [List.foldl_cons, ih, getVec_insertDevice]
    by_cases h : d.protocol_name = p
    · have hb : (d.protocol_name == p) = true := beq_iff_eq.mpr h
      simp [List.filter_cons, hb, h.symm, List.append_assoc]
    · have hb : ¬ (d.protocol_name == p) = true := by simpa using h
      have hp : ¬ p = d.protocol_name := fun hh => h hh.symm
      simp [List.filter_cons, hb, hp]

/-- Keys after one `insertDevice` step: unchanged when the key is present,
extended by the key at the end otherwise. -/
theorem keys_insertDevice (m : List (String × List Device)) (key : String)
    (d : Device) :
    (insertDevice m key d).map Prod.fst
      = if key ∈ m.map Prod.fst then m.map Prod.fst
        else m.map Prod.fst ++ [key] := by
  induction m with
  | nil => simp [insertDevice]
  | cons e rest ih =>
    by_cases he : e.1 = key
    · simp [insertDevice, he]
    · have hne : ¬ key = e.1 := fun hh => he hh.symm
      by_cases hk : key ∈ rest.map Prod.fst
      · simp [insertDevice, he, ih, hk, hne]
      · simp [insertDevice, he, ih, hk, hne]

/-- Keys of the map are duplicate-free and accumulate exactly the protocol
names of the processed devices. -/
theorem keys_foldl_nodup (db : Database) (ds : List DeviceDTO)
    (m : List (String × List Device)) (hm : (m.map Prod.fst).Nodup) :
    ((ds.foldl (fun res device =>
        insertDevice res device.protocol_name (attachPoints db device)) m).map
          Prod.fst).Nodup
  ∧ ((ds.foldl (fun res device =>
        insertDevice res device.protocol_name (attachPoints db device)) m).map
          Prod.fst).toFinset
      = (m.map Prod.fst).toFinset
          ∪ (ds.map (fun d => d.protocol_name)).toFinset := by
  induction ds generalizing m with
  | nil => simp [hm]
  | cons d t ih =>
    rw [List.foldl_cons]
    have h1 : ((insertDevice m d.protocol_name (attachPoints db d)).map
        Prod.fst).Nodup := by
      rw [keys_insertDevice]
      by_cases h : d.protocol_name ∈ m.map Prod.fst
      · simpa [h] using hm
      · rw [if_neg h]
        refine List.Nodup.append hm (List.nodup_singleton _) ?_
        intro a ha hb
        simp only [List.mem_singleton] at hb
        subst hb
        exact h ha
    have h2 : ((insertDevice m d.protocol_name (attachPoints db d)).map
        Prod.fst).toFinset
        = insert d.protocol_name (m.map Prod.fst).toFinset := by
      rw [keys_insertDevice]
      by_cases h : d.protocol_name ∈ m.map Prod.fst
      · rw [if_pos h]
        exact (Finset.insert_eq_self.mpr (List.mem_toFinset.mpr h)).symm
      · rw [if_neg h, List.toFinset_append, Finset.union_comm]
        simp [Finset.insert_eq]
    obtain ⟨hn, hf⟩ := ih _ h1
    refine ⟨hn, ?_⟩
    rw [hf, h2, Finset.insert_union, List.map_cons, List.toFinset_cons,
      Finset.union_insert]

/-- Claim C10: `load_all_device_details` partitions the device table — the
vector under each key `p` is exactly the devices whose own protocol name is
`p`, in table order, each carrying exactly the points whose device_id equals
its id; and the number of keys equals the number of distinct protocol names
among the devices. -/
theorem load_all_device_details_partition (db : Database) (p : String) :
    getVec (load_all_device_details db) p
      = (db.devices.filter (fun d => d.protocol_name == p)).map (attachPoints db)
  ∧ (∀ dev ∈ getVec (load_all_device_details db) p,
      dev.protocol_name = p
        ∧ dev.points = db.points.filter (fun q => q.device_id == dev.id))
  ∧ ((load_all_device_details db).map Prod.fst).length
      = (db.devices.map (fun d => d.protocol_name)).dedup.length := by
  have h1 : getVec (load_all_device_details db) p
      = (db.devices.filter (fun d => d.protocol_name == p)).map
          (attachPoints db) := by
    have := getVec_foldl db db.devices [] p
    simpa [load_all_device_details, getVec] using this
  refine ⟨h1, ?_, ?_⟩
  · intro dev hdev
    rw [h1] at hdev
    obtain ⟨d0, hd0, rfl⟩ := List.mem_map.mp hdev
    have hd0f := List.mem_filter.mp hd0
    exact ⟨by simpa [attachPoints] using beq_iff_eq.mp hd0f.2,
      by simp [attachPoints]⟩
  · obtain ⟨hn, hf⟩ := keys_foldl_nodup db db.devices [] (by simp)
    have hkeys : ((load_all_device_details db).map Prod.fst).toFinset
        = (db.devices.map (fun d => d.protocol_name)).toFinset := by
      simpa [load_all_device_details] using hf
    have hnod : ((load_all_device_details db).map Prod.fst).Nodup := by
      simpa [load_all_device_details] using hn
    have hded : (db.devices.map (fun d => d.protocol_name)).dedup.toFinset
        = (db.devices.map (fun d => d.protocol_name)).toFinset :=
      Finset.ext fun a => by simp
    calc ((load_all_device_details db).map Prod.fst).length
        = ((load_all_device_details db).map Prod.fst).toFinset.card :=
          (List.toFinset_card_of_nodup hnod).symm
      _ = (db.devices.map (fun d => d.protocol_name)).toFinset.card := by
          rw [hkeys]
      _ = (db.devices.map (fun d => d.protocol_name)).dedup.toFinset.card := by
          rw [hded]
      _ = (db.devices.map (fun d => d.protocol_name)).dedup.length :=
          List.toFinset_card_of_nodup (List.nodup_dedup _)

/-- Witness for C10: in `exDb` the vector under `mockA` contains the assembled
device 1, whose protocol name is `mockA` and whose points are exactly the
`tb_point` rows with device_id 1. -/
theorem load_all_device_details_partition_witness :
    attachPoints exDb exDevice ∈ getVec (load_all_device_details exDb) "mockA"
  ∧ (attachPoints exDb exDevice).protocol_name = "mockA"
  ∧ (attachPoints exDb exDevice).points
      = exDb.points.filter
          (fun q => q.device_id == (attachPoints exDb exDevice).id) := by
  have hmem : attachPoints exDb exDevice
      ∈ getVec (load_all_device_details exDb) "mockA" := by decide
  have h := (load_all_device_details_partition exDb "mockA").2.1 _ hmem
  exact ⟨hmem, h.1, h.2⟩
